import Mathlib

/-!
# Verification of the AI video pipeline orchestrator

Shallow embedding of the run orchestrator of the `ai-video-automation`
repository (`main.py`, `server.py` and the stage adapter modules under
`scripts/`).  External collaborators (Gemini, Edge-TTS, Pexels, MoviePy,
Whisper, FFmpeg, the YouTube API) are modelled as an environment record
whose fields give each collaborator's outcome; the orchestrator's own
control flow — stage ordering, fallbacks, exception handling, cleanup,
the HTTP admission gate and the trigger-surface normalisation — is
translated faithfully from the source.
-/

namespace AIVideo

/-- Decidable equality for `Except`, used to evaluate closed statements
about fallible operations. -/
instance {ε α : Type} [DecidableEq ε] [DecidableEq α] :
    DecidableEq (Except ε α) := fun x y =>
  match x, y with
  | .ok a, .ok b =>
    if h : a = b then isTrue (by rw [h]) else isFalse (by simp [h])
  | .error a, .error b =>
    if h : a = b then isTrue (by rw [h]) else isFalse (by simp [h])
  | .ok _, .error _ => isFalse (by simp)
  | .error _, .ok _ => isFalse (by simp)

/-! ## Python string primitives

All primitives are written over the character list underlying a `String`,
with structural recursion, so that closed statements about the program
evaluate inside the kernel. -/

/-- Split a character list on a separator character (the pieces between
occurrences, like Python `str.split(sep)` for a one-character `sep`). -/
def splitOnChar (sep : Char) : List Char → List (List Char)
  | [] => [[]]
  | c :: rest =>
    let r := splitOnChar sep rest
    if c = sep then [] :: r
    else
      match r with
      | [] => [[c]]
      | h :: t => (c :: h) :: t

/-- Python `s.split(sep)` for a one-character separator. -/
def pySplitOn (sep : Char) (s : String) : List String :=
  (splitOnChar sep s.data).map (fun l => ⟨l⟩)

/-- Python `str.strip()` with no argument: remove leading and trailing
whitespace. -/
def pyStrip (s : String) : String :=
  ⟨((s.data.dropWhile Char.isWhitespace).reverse.dropWhile
      Char.isWhitespace).reverse⟩

/-- Python `str.upper()` (character-wise, as it behaves on ASCII). -/
def pyUpper (s : String) : String := ⟨s.data.map Char.toUpper⟩

/-- Python `str.lower()` (character-wise, as it behaves on ASCII). -/
def pyLower (s : String) : String := ⟨s.data.map Char.toLower⟩

/-- Python `s.startswith(pre)`. -/
def pyStartsWith (s pre : String) : Bool := pre.data.isPrefixOf s.data

/-- Python `s[1:]`: drop the first character. -/
def pyDropFirst (s : String) : String := ⟨s.data.drop 1⟩

/-- Python `s.split(sep, 1)[1]`: everything after the first occurrence of
`sep`.  Callers in the source guard on a prefix that contains `sep`, so the
out-of-range case (no separator) is unreachable there; we return `""`. -/
def afterFirst (sep : Char) (s : String) : String :=
  String.intercalate sep.toString (pySplitOn sep s).tail

/-- Python `str.splitlines()` restricted to `\n` / `\r\n` terminators:
split on `\n`, drop a trailing empty piece, strip a trailing `\r`. -/
def pySplitlines (s : String) : List String :=
  let parts := pySplitOn '\n' s
  let parts := if parts.getLast? = some "" then parts.dropLast else parts
  parts.map (fun l =>
    if l.data.getLast? = some '\r' then (⟨l.data.dropLast⟩ : String) else l)

/-- Accumulator loop for whitespace splitting. -/
def wordsAux : List Char → List Char → List (List Char)
  | acc, [] => if acc.isEmpty then [] else [acc.reverse]
  | acc, c :: rest =>
    if c.isWhitespace then
      if acc.isEmpty then wordsAux [] rest
      else acc.reverse :: wordsAux [] rest
    else wordsAux (c :: acc) rest

/-- Python `str.split()` with no argument: split on whitespace runs,
dropping empty pieces. -/
def pySplitWS (s : String) : List String :=
  (wordsAux [] s.data).map (fun l => ⟨l⟩)

/-! ## `scripts/generate_script.py` — `generate_metadata` parsing

`generate_metadata` asks Gemini for a `TITLE:` / `DESCRIPTION:` / `TAGS:`
formatted payload and then parses it line by line, starting from the
defaults `{"title": topic, "description": "", "tags": []}`. -/

structure Metadata where
  title : String
  description : String
  tags : List String
deriving Repr, DecidableEq

/-- One iteration of the parsing loop in `generate_metadata`
(`generate_script.py` lines 167-173). -/
def parse_meta_line (m : Metadata) (line : String) : Metadata :=
  if pyStartsWith (pyUpper line) "TITLE:" then
    { m with title := pyStrip (afterFirst ':' line) }
  else if pyStartsWith (pyUpper line) "DESCRIPTION:" then
    { m with description := pyStrip (afterFirst ':' line) }
  else if pyStartsWith (pyUpper line) "TAGS:" then
    { m with tags := (pySplitOn ',' (afterFirst ':' line)).map pyStrip }
  else m

/-- `generate_metadata(topic, script_text)` applied to the raw text payload
returned by the collaborator (`generate_script.py` lines 166-175).  The
HTTP call itself is part of the environment; this is the total parsing
step applied to its payload. -/
def generate_metadata (topic raw : String) : Metadata :=
  (pySplitlines raw).foldl parse_meta_line
    { title := topic, description := "", tags := [] }

/-! ## `scripts/fetch_visuals.py` — Pexels image acquisition

The Pexels search is the environment function `search : String → List
String` giving, per query, the list of photo URLs the API returns.
Downloads of returned photos are modelled as succeeding; a saved file is
named `img{i}.jpg` as in the source. -/

/-- The generic fallback query hard-coded in `fetch_visuals.py` line 35. -/
def FALLBACK_QUERY : String := "nature landscape"

/-- Result of one `fetch_images`-style call: the search queries issued, in
order, and the saved file paths. -/
structure FetchResult where
  queries : List String
  saved : List String
deriving Repr, DecidableEq

/-- `fetch_images(query, count=6)` (`fetch_visuals.py` lines 15-52): search
for `query`; on an empty photo list retry once with the generic fallback
query; download up to 6 of the resulting photos as `img{i}.jpg`. -/
def fetch_images (search : String → List String) (query : String) :
    FetchResult :=
  let photos := search query
  if photos.isEmpty then
    let photos2 := search FALLBACK_QUERY
    { queries := [query, FALLBACK_QUERY],
      saved := (List.range (min photos2.length 6)).map
        (fun i => s!"assets/images/img{i}.jpg") }
  else
    { queries := [query],
      saved := (List.range (min photos.length 6)).map
        (fun i => s!"assets/images/img{i}.jpg") }

/-- The shortened retry query of `fetch_images_for_scenes`
(`fetch_visuals.py` line 115): the first three whitespace-separated words
of the scene description. -/
def short_query (d : String) : String :=
  String.intercalate " " ((pySplitWS d).take 3)

/-- Per-scene acquisition (`fetch_visuals.py` lines 106-133): search the
scene description, on a miss retry once with the shortened query, save
`img{i}.jpg` if either search hit, otherwise skip the scene. -/
def scene_image (search : String → List String) (i : Nat) (d : String) :
    Option String :=
  let photos := search d
  let photos := if photos.isEmpty then search (short_query d) else photos
  if photos.isEmpty then none else some s!"assets/images/img{i}.jpg"

/-- `fetch_images_for_scenes(scenes)` (`fetch_visuals.py` lines 91-135):
one image per scene, misses skipped. -/
def fetch_images_for_scenes (search : String → List String)
    (scenes : List String) : List String :=
  scenes.enum.filterMap (fun p => scene_image search p.1 p.2)

/-- The queries a single scene contributes (primary, plus the shortened
retry when the primary search comes back empty). -/
def scene_queries (search : String → List String) (d : String) :
    List String :=
  if (search d).isEmpty then [d, short_query d] else [d]

/-! ## `scripts/make_video.py` — `create_video`

Only the orchestration-relevant behaviour is modelled: the stage fails when
the image directory holds no images (`make_video.py` lines 77-79), and
otherwise produces `output_path`; the MoviePy encode itself is the
environment outcome `assemble`. -/

/-- `create_video(images_dir, audio_path, output_path, format_type)`
restricted to its failure structure. -/
def create_video (images : List String) (output_path : String)
    (assemble : Except String Unit) : Except String String :=
  if images.isEmpty then .error "No images found"
  else
    match assemble with
    | .ok _ => .ok output_path
    | .error e => .error e

/-! ## Python keyword-call semantics for the thumbnail and upload stages

`main.py` invokes `create_thumbnail` and `upload_video` with keyword
arguments.  In Python, passing a keyword the callee's signature does not
declare raises `TypeError` before the callee's body runs.  The accepted
parameter names below are transcribed from the `def` lines of
`thumbnail.py` and `upload_youtube.py`; the passed keyword names from the
call sites in `main.py`. -/

/-- Parameters of `create_thumbnail` (`thumbnail.py` lines 17-21):
`title`, `image_path`, `output_path`. -/
def create_thumbnail_params : List String :=
  ["title", "image_path", "output_path"]

/-- Parameters of `upload_video` (`upload_youtube.py` lines 82-90). -/
def upload_video_params : List String :=
  ["video_path", "title", "description", "tags", "category_id",
   "privacy", "thumbnail_path"]

/-- Keyword arguments of the `create_thumbnail` call in `main.py` lines
218-223 (`title` is passed positionally). -/
def thumbnail_call_kwargs : List String :=
  ["image_path", "output_path", "format_type"]

/-- Keyword arguments of the `upload_video` call in `main.py` lines
235-243. -/
def upload_call_kwargs : List String :=
  ["video_path", "title", "description", "tags", "thumbnail_path",
   "privacy", "is_short"]

/-- A Python call succeeds in binding its arguments iff every passed
keyword is a declared parameter of the callee. -/
def kwargsAccepted (params kwargs : List String) : Bool :=
  kwargs.all (fun k => params.contains k)

/-- The `create_thumbnail` call as made by `main.py`: a `TypeError` is
raised before the body runs when a passed keyword is not accepted. -/
def call_create_thumbnail (body : Except String Unit) :
    Except String Unit :=
  if kwargsAccepted create_thumbnail_params thumbnail_call_kwargs then body
  else .error "TypeError: create_thumbnail() got an unexpected keyword argument 'format_type'"

/-- The `upload_video` call as made by `main.py`: a `TypeError` is raised
before the body runs when a passed keyword is not accepted. -/
def call_upload_video (body : Except String String) :
    Except String String :=
  if kwargsAccepted upload_video_params upload_call_kwargs then body
  else .error "TypeError: upload_video() got an unexpected keyword argument 'is_short'"

/-! ## Workspace directories (`main.py` lines 115-125)

`run_pipeline` derives a run directory from the timestamp run id and
creates three sub-directories with `os.makedirs(..., exist_ok=True)`.
The filesystem is a list of existing directory paths. -/

/-- Python `os.makedirs(path, exist_ok=ok)` on the leaf directory: an
existing path raises `FileExistsError` only when `exist_ok` is false. -/
def makedirs (fs : List String) (path : String) (exist_ok : Bool) :
    Except String (List String) :=
  if fs.contains path then
    if exist_ok then .ok fs else .error ("FileExistsError: " ++ path)
  else .ok (path :: fs)

/-- The run directory derived from the run id (`main.py` line 117). -/
def workspace_root (run_id : String) : String := "runs/" ++ run_id

/-- The workspace-opening sequence of `main.py` lines 119-125: create the
audio, video and image sub-directories, each with `exist_ok=True`. -/
def open_workspace (fs : List String) (run_id : String) :
    Except String (List String) :=
  let run_dir := workspace_root run_id
  match makedirs fs (run_dir ++ "/audio") true with
  | .error e => .error e
  | .ok fs1 =>
    match makedirs fs1 (run_dir ++ "/video") true with
    | .error e => .error e
    | .ok fs2 => makedirs fs2 (run_dir ++ "/images") true

/-! ## `main.py` — `run_pipeline` -/

/-- Python `os.path.basename` for forward-slash paths. -/
def basename (p : String) : String := ((pySplitOn '/' p).getLast?).getD p

/-- The canonical run configuration `run_pipeline` receives
(`main.py` lines 107-112). -/
structure RunConfig where
  topic : String
  upload : Bool
  format_type : String
  privacy : String
deriving Repr, DecidableEq

/-- Outcomes of the external collaborators for one run.  Each fallible
collaborator is an `Except`; the Pexels search is the per-query result
list. -/
structure Env where
  runId : String
  script : Except String String
  scenes : Except String (List String)
  metaRaw : Except String String
  voice : Except String Unit
  search : String → List String
  assemble : Except String Unit
  srt : Except String String
  burn : Except String Unit
  thumbBody : Except String Unit
  uploadBody : Except String String

/-- What a completed (non-fatal) run reports. -/
structure RunSuccess where
  finalVideo : String
  outputVideo : String
  thumbnailPath : Option String
  isShort : Option Bool
  uploadedId : Option String
  uploadErr : Option String
deriving Repr, DecidableEq

/-- Outcome of a `run_pipeline` call: `fatal` = an uncaught exception
propagated out of `run_pipeline`, `done` = control reached the end. -/
inductive RunResult where
  | fatal (msg : String)
  | done (r : RunSuccess)
deriving Repr, DecidableEq

/-- Whether the run completed without an uncaught exception. -/
def RunResult.isOk : RunResult → Bool
  | .fatal _ => false
  | .done _ => true

/-- The completed-run record, when there is one. -/
def RunResult.success? : RunResult → Option RunSuccess
  | .fatal _ => none
  | .done r => some r

/-- Observable trace of one `run_pipeline` call: whether the workspace
directories were created, the step-5 search queries issued, whether the
cleanup at `main.py` line 252 ran, and the outcome. -/
structure RunTrace where
  workspaceCreated : Bool
  visualQueries : List String
  cleanupRan : Bool
  result : RunResult
deriving Repr, DecidableEq

/-- Step 5 of `run_pipeline` (`main.py` lines 166-176): per-scene
acquisition when scenes exist, a raw-topic `fetch_images` otherwise, and a
topic-level `fetch_images` on the generic fallback query when the result
list is still empty.  Returns (queries issued, saved paths). -/
def step5 (search : String → List String) (topic : String)
    (scenes : List String) : List String × List String :=
  let first :=
    if scenes.isEmpty then
      let r := fetch_images search topic
      (r.queries, r.saved)
    else
      ((scenes.map (scene_queries search)).flatten,
       fetch_images_for_scenes search scenes)
  if first.2.isEmpty then
    let r := fetch_images search FALLBACK_QUERY
    (first.1 ++ r.queries, r.saved)
  else first

/-- `run_pipeline(topic, upload, format_type, privacy)` (`main.py` lines
107-262), stage by stage.  Exceptions from stages 1-4 and 6 propagate
(`.error` result, no cleanup); stage 7 (subtitles), 7b (thumbnail) and 8
(upload) failures are caught in `try/except` and the run continues;
cleanup runs only when control reaches line 252. -/
def run_pipeline (cfg : RunConfig) (env : Env) : RunTrace :=
  let run_dir := workspace_root env.runId
  let video_dir := run_dir ++ "/video"
  let image_dir := run_dir ++ "/images"
  let video_file := video_dir ++ "/final.mp4"
  match env.script with
  | .error e =>
    { workspaceCreated := true, visualQueries := [], cleanupRan := false,
      result := .fatal e }
  | .ok _script_text =>
    match env.scenes with
    | .error e =>
      { workspaceCreated := true, visualQueries := [], cleanupRan := false,
        result := .fatal e }
    | .ok scenes =>
      match env.metaRaw with
      | .error e =>
        { workspaceCreated := true, visualQueries := [],
          cleanupRan := false, result := .fatal e }
      | .ok _raw =>
        match env.voice with
        | .error e =>
          { workspaceCreated := true, visualQueries := [],
            cleanupRan := false, result := .fatal e }
        | .ok _ =>
          let s5 := step5 env.search cfg.topic scenes
          let images := s5.2.map (fun p => image_dir ++ "/" ++ basename p)
          match create_video images video_file env.assemble with
          | .error e =>
            { workspaceCreated := true, visualQueries := s5.1,
              cleanupRan := false, result := .fatal e }
          | .ok video_path =>
            let final_video :=
              match env.srt, env.burn with
              | .ok _, .ok _ => video_dir ++ "/final_subtitled.mp4"
              | _, _ => video_path
            let thumbnailPath :=
              if cfg.format_type = "landscape" then
                match call_create_thumbnail env.thumbBody with
                | .ok _ => some (video_dir ++ "/thumbnail.jpg")
                | .error _ => none
              else none
            let upl :
                Option Bool × Option String × Option String :=
              if cfg.upload then
                let is_short := cfg.format_type == "portrait"
                match call_upload_video env.uploadBody with
                | .ok vid => (some is_short, some vid, none)
                | .error e => (some is_short, none, some e)
              else (none, none, none)
            { workspaceCreated := true, visualQueries := s5.1,
              cleanupRan := true,
              result := .done
                { finalVideo := final_video,
                  outputVideo := "output/" ++ basename final_video,
                  thumbnailPath := thumbnailPath,
                  isShort := upl.1,
                  uploadedId := upl.2.1,
                  uploadErr := upl.2.2 } }

/-! ## `main.py` — CLI trigger (`get_inputs` and `__main__`) -/

/-- The parsed CLI inputs. -/
structure CliInputs where
  topic : String
  format : String
  upload : Bool
  privacy : String
deriving Repr, DecidableEq

/-- `get_inputs()` on the argument path (`main.py` lines 40-53): with four
command-line arguments, the topic is taken verbatim (no trimming), format
and privacy are lowercased, and upload is the comparison
`args[2].lower() == "true"`.  (The interactive fallback reads stdin and is
outside this embedding.) -/
def get_inputs (a0 a1 a2 a3 : String) : CliInputs :=
  { topic := a0, format := pyLower a1, upload := pyLower a2 == "true",
    privacy := pyLower a3 }

/-- `main.py` line 277: map the CLI format choice to the pipeline's
format type. -/
def format_type_of (format : String) : String :=
  if format = "short" then "portrait" else "landscape"

/-- Result of one `python main.py ...` process. -/
structure CliResult where
  ranPipeline : Bool
  trace : Option RunTrace
  exitOk : Bool
deriving Repr, DecidableEq

/-- The `__main__` block of `main.py` (lines 265-279): parse the four
arguments, exit with an error when the (untrimmed) topic is the empty
string, otherwise run the pipeline; the process exits cleanly iff
`run_pipeline` did not raise. -/
def cli_main (a0 a1 a2 a3 : String) (env : Env) : CliResult :=
  let inp := get_inputs a0 a1 a2 a3
  if inp.topic = "" then
    { ranPipeline := false, trace := none, exitOk := false }
  else
    let t := run_pipeline
      { topic := inp.topic, upload := inp.upload,
        format_type := format_type_of inp.format, privacy := inp.privacy }
      env
    { ranPipeline := true, trace := some t, exitOk := t.result.isOk }

/-! ## `server.py` — HTTP trigger and concurrency gate -/

/-- The JSON `upload` field as received: a boolean, a string, absent, or
some other JSON value. -/
inductive UploadField where
  | b (v : Bool)
  | s (v : String)
  | absent
  | other
deriving Repr, DecidableEq

/-- The JSON object body of a `/run` request (after the single-element
array unwrapping of `server.py` lines 32-38). -/
structure HttpData where
  topic : Option String
  format : Option String
  upload : UploadField
  privacy : Option String

/-- Strip a leading `=` (Excel/n8n quirk) and re-trim, as done for each
field in `server.py` lines 45-59. -/
def strip_eq (s : String) : String :=
  if pyStartsWith s "=" then pyStrip (pyDropFirst s) else s

/-- The upload coercion of `server.py` lines 53-67: booleans pass through,
strings (after the `=`-strip) count as true exactly when they lowercase to
`"true"`, `"yes"` or `"1"`, anything else is false. -/
def http_coerce_upload (u : UploadField) : Bool :=
  match u with
  | .b v => v
  | .s v =>
    let v := if pyStartsWith v "=" then pyStrip (pyDropFirst v) else v
    ["true", "yes", "1"].contains (pyLower v)
  | _ => false

/-- HTTP responses of the `/run` endpoint: 429 busy, 400 validation
error, 500 pipeline/server error, 200 success. -/
inductive HttpResponse where
  | busy
  | badRequest (msg : String)
  | serverError (msg : String)
  | ok
deriving Repr, DecidableEq

/-- The request body of `server.py` lines 29-102, i.e. everything inside
the `try:` after the gate was acquired: field normalisation, validation,
and the `subprocess.run([... main.py, topic, format, upload, privacy])`
dispatch (`check=True` turns a failing process into a 500). -/
def server_handle (hd : HttpData) (env : Env) :
    HttpResponse × Option RunTrace :=
  let topic := strip_eq (pyStrip (hd.topic.getD ""))
  let format := strip_eq (pyLower (pyStrip (hd.format.getD "video")))
  let upload := http_coerce_upload hd.upload
  let privacy := strip_eq (pyLower (pyStrip (hd.privacy.getD "private")))
  if topic = "" then (.badRequest "Topic is required", none)
  else if ¬ (format = "short" ∨ format = "video") then
    (.badRequest ("Invalid format: " ++ format), none)
  else
    let r := cli_main topic format (if upload then "true" else "false")
      privacy env
    (if r.exitOk then .ok else .serverError "CalledProcessError", r.trace)

/-- Observable outcome of one `/run` request. -/
structure ServerOutcome where
  response : HttpResponse
  trace : Option RunTrace
  lockedAfter : Bool

/-- The `/run` endpoint (`server.py` lines 19-123): a non-blocking
`pipeline_lock.acquire` that rejects with the busy response when the gate
is held (leaving the holder's lock in place), and otherwise handles the
request with the lock released in the `finally:` on every exit path. -/
def server_run (locked : Bool) (hd : HttpData) (env : Env) :
    ServerOutcome :=
  if locked then
    { response := .busy, trace := none, lockedAfter := true }
  else
    let rt := server_handle hd env
    { response := rt.1, trace := rt.2, lockedAfter := false }

/-! ## Shared fixtures: a fully successful collaborator environment -/

/-- A Pexels search that returns two photos for every query. -/
def searchOK : String → List String := fun _ => ["u1", "u2"]

/-- An environment in which every collaborator succeeds. -/
def envOK : Env where
  runId := "20240101_000000"
  script := .ok "script text"
  scenes := .ok ["volcano eruption", "lava flow"]
  metaRaw := .ok "TITLE: T\nDESCRIPTION: D\nTAGS: a, b"
  voice := .ok ()
  search := searchOK
  assemble := .ok ()
  srt := .ok "voice.srt"
  burn := .ok ()
  thumbBody := .ok ()
  uploadBody := .ok "VID123"

/-! ## Shared lemmas -/

/-- The saved list of a `fetch_images` call is empty exactly when both the
primary search and the built-in generic fallback search return no
photos. -/
lemma fetch_images_saved_eq_nil (search : String → List String)
    (q : String) :
    (fetch_images search q).saved = [] ↔
      search q = [] ∧ search FALLBACK_QUERY = [] := by
  unfold fetch_images
  cases hq : search q with
  | nil =>
    cases hf : search FALLBACK_QUERY with
    | nil => simp [hq, hf]
    | cons a t => simp [hq, hf, Nat.min_eq_zero_iff]
  | cons a t => simp [hq, Nat.min_eq_zero_iff]

/-- The first query a `fetch_images` call issues is its argument. -/
lemma fetch_images_queries_head (search : String → List String)
    (q : String) : (fetch_images search q).queries.head? = some q := by
  unfold fetch_images
  cases hq : search q <;> simp [hq]

/-- With an empty scene list, the step-5 image list is empty exactly when
both the raw-topic search and the generic fallback search return no
photos. -/
lemma step5_nil_saved_iff (search : String → List String) (topic : String) :
    (step5 search topic []).2 = [] ↔
      (search topic = [] ∧ search FALLBACK_QUERY = []) := by
  unfold step5
  by_cases h : (fetch_images search topic).saved.isEmpty = true
  · have h' := (fetch_images_saved_eq_nil search topic).mp
      (by simpa using h)
    simp only [List.isEmpty_nil, if_true, h, if_pos]
    rw [fetch_images_saved_eq_nil]
    simp [h'.1, h'.2]
  · simp only [List.isEmpty_nil, if_true, h, if_neg]
    simp only [Bool.not_eq_true] at h
    simp [h]
    exact fetch_images_saved_eq_nil search topic

/-- When the generic fallback search returns at least one photo, step 5
never produces an empty image list. -/
lemma step5_saved_ne_nil (search : String → List String) (topic : String)
    (scenes : List String) (hf : search FALLBACK_QUERY ≠ []) :
    (step5 search topic scenes).2 ≠ [] := by
  unfold step5
  set first := if scenes.isEmpty then
      let r := fetch_images search topic
      (r.queries, r.saved)
    else
      ((scenes.map (scene_queries search)).flatten,
       fetch_images_for_scenes search scenes) with hfirst
  by_cases h : first.2.isEmpty = true
  · simp only [h, if_pos]
    intro hc
    exact hf ((fetch_images_saved_eq_nil search FALLBACK_QUERY).mp hc).2
  · simp only [h, if_neg]
    simpa using h

/-- With an empty scene list, the first step-5 search query is the raw
topic. -/
lemma step5_nil_queries_head (search : String → List String)
    (topic : String) :
    (step5 search topic []).1.head? = some topic := by
  unfold step5
  unfold fetch_images
  cases hq : search topic with
  | nil =>
    simp [hq]
    split <;> simp
  | cons a t => simp [hq]

/-- With an empty scene list and a raw-topic search that returns nothing,
the generic fallback query is among the step-5 queries. -/
lemma step5_nil_fallback_mem (search : String → List String)
    (topic : String) (h : search topic = []) :
    FALLBACK_QUERY ∈ (step5 search topic []).1 := by
  unfold step5
  unfold fetch_images
  simp [h]
  split <;> simp

/-- A `parse_meta_line` step on a line that is not a `TITLE:` line leaves
the title unchanged. -/
lemma parse_meta_line_title (m : Metadata) (l : String)
    (h : pyStartsWith (pyUpper l) "TITLE:" = false) :
    (parse_meta_line m l).title = m.title := by
  unfold parse_meta_line
  rw [h]
  simp only [Bool.false_eq_true, if_false]
  split <;> try split
  all_goals rfl

/-- A `parse_meta_line` step on a line that is not a `DESCRIPTION:` line
leaves the description unchanged. -/
lemma parse_meta_line_description (m : Metadata) (l : String)
    (h : pyStartsWith (pyUpper l) "DESCRIPTION:" = false) :
    (parse_meta_line m l).description = m.description := by
  unfold parse_meta_line
  split
  · rfl
  · rw [h]
    simp only [Bool.false_eq_true, if_false]
    split <;> rfl

/-- A `parse_meta_line` step on a line that is not a `TAGS:` line leaves
the tags unchanged. -/
lemma parse_meta_line_tags (m : Metadata) (l : String)
    (h : pyStartsWith (pyUpper l) "TAGS:" = false) :
    (parse_meta_line m l).tags = m.tags := by
  unfold parse_meta_line
  split
  · rfl
  · split
    · rfl
    · rw [h]
      simp only [Bool.false_eq_true, if_false]

/-- Folding the metadata parser over lines none of which is a `TITLE:`
line preserves the title. -/
lemma foldl_parse_title (lines : List String) (m : Metadata)
    (h : ∀ l ∈ lines, pyStartsWith (pyUpper l) "TITLE:" = false) :
    (lines.foldl parse_meta_line m).title = m.title := by
  induction lines generalizing m with
  | nil => rfl
  | cons l ls ih =>
    rw [List.foldl_cons, ih _ (fun x hx => h x (List.mem_cons_of_mem _ hx))]
    exact parse_meta_line_title m l (h l (List.mem_cons_self _ _))

/-- Folding the metadata parser over lines none of which is a
`DESCRIPTION:` line preserves the description. -/
lemma foldl_parse_description (lines : List String) (m : Metadata)
    (h : ∀ l ∈ lines, pyStartsWith (pyUpper l) "DESCRIPTION:" = false) :
    (lines.foldl parse_meta_line m).description = m.description := by
  induction lines generalizing m with
  | nil => rfl
  | cons l ls ih =>
    rw [List.foldl_cons, ih _ (fun x hx => h x (List.mem_cons_of_mem _ hx))]
    exact parse_meta_line_description m l (h l (List.mem_cons_self _ _))

/-- Folding the metadata parser over lines none of which is a `TAGS:`
line preserves the tags. -/
lemma foldl_parse_tags (lines : List String) (m : Metadata)
    (h : ∀ l ∈ lines, pyStartsWith (pyUpper l) "TAGS:" = false) :
    (lines.foldl parse_meta_line m).tags = m.tags := by
  induction lines generalizing m with
  | nil => rfl
  | cons l ls ih =>
    rw [List.foldl_cons, ih _ (fun x hx => h x (List.mem_cons_of_mem _ hx))]
    exact parse_meta_line_tags m l (h l (List.mem_cons_self _ _))

/-! ## Remaining fixtures -/

/-- A landscape, no-publish run configuration (the spec's "volcanoes"
scenario). -/
def cfgLandscape : RunConfig :=
  { topic := "volcanoes", upload := false, format_type := "landscape",
    privacy := "private" }

/-- A portrait run with publish enabled (the spec's "daily tip"
scenario). -/
def cfgShortPublish : RunConfig :=
  { topic := "daily tip", upload := true, format_type := "portrait",
    privacy := "public" }

/-- An environment whose script stage fails fatally. -/
def envScriptFail : Env := { envOK with script := .error "Gemini API failure" }

/-- An environment whose subtitle transcription fails. -/
def envNoSub : Env := { envOK with srt := .error "whisper failed" }

/-- An environment whose scene extraction returns an empty list. -/
def envNoScenes : Env := { envOK with scenes := .ok [] }

/-- A filesystem in which the run directory derived from the run id (and
its sub-directories) already exist. -/
def fs_preexisting : List String :=
  ["runs/20240101_000000", "runs/20240101_000000/audio",
   "runs/20240101_000000/video", "runs/20240101_000000/images"]

/-- An HTTP request whose topic is whitespace only. -/
def hdBlankTopic : HttpData :=
  { topic := some "   ", format := some "video", upload := .b false,
    privacy := none }

/-- `makedirs` with `exist_ok=True` never fails: it returns the filesystem
extended with the path when absent, unchanged when present. -/
lemma makedirs_exist_ok (fs : List String) (p : String) :
    makedirs fs p true = .ok (if fs.contains p then fs else p :: fs) := by
  unfold makedirs
  split <;> simp

/-! ## Claim C1 -/

/-- Claim C1 counterexample: in a run whose script stage (stage 1) fails
fatally, `run_pipeline` propagates the exception without running the
cleanup of `main.py` line 252 — the workspace is NOT torn down on a fatal
stage failure, contrary to the claim. -/
theorem C1_cleanup_counterexample :
    (run_pipeline cfgLandscape envScriptFail).result.isOk = false ∧
    (run_pipeline cfgLandscape envScriptFail).cleanupRan = false := by
  decide

/-- Claim C1 (amended): the workspace is opened before stage 1 on every
run, but it is torn down exactly when the run reaches the end of the
pipeline (all load-bearing stages succeeded); when a load-bearing stage
fails fatally the failure propagates with the workspace left in place. -/
theorem C1_workspace_lifecycle (cfg : RunConfig) (env : Env) :
    (run_pipeline cfg env).workspaceCreated = true ∧
    (run_pipeline cfg env).cleanupRan = (run_pipeline cfg env).result.isOk := by
  unfold run_pipeline
  cases env.script with
  | error e => simp [RunResult.isOk]
  | ok s =>
    cases env.scenes with
    | error e => simp [RunResult.isOk]
    | ok sc =>
      cases env.metaRaw with
      | error e => simp [RunResult.isOk]
      | ok raw =>
        cases env.voice with
        | error e => simp [RunResult.isOk]
        | ok u =>
          dsimp only
          split <;> simp [RunResult.isOk]

/-! ## Claim C2 -/

/-- Claim C2: a `/run` request that finds the concurrency gate held is
rejected immediately with the distinct busy response, runs no pipeline,
and leaves the holder's lock in place; an admitted request (gate free)
ends with the gate released whatever the request body and pipeline
outcome. -/
theorem C2_busy_rejected_and_gate_released (hd : HttpData) (env : Env) :
    ((server_run true hd env).response = .busy ∧
     (server_run true hd env).trace = none ∧
     (server_run true hd env).lockedAfter = true) ∧
    (server_run false hd env).lockedAfter = false := by
  simp [server_run]

/-! ## Claim C3 -/

/-- Claim C3: if the subtitle pass fails at any point (transcription or
burning), the failure is caught, the pipeline continues, the final
artifact is the silent stage-6 video `runs/<id>/video/final.mp4`, and the
run reports success. -/
theorem C3_subtitle_degradation (cfg : RunConfig) (env : Env)
    (s raw : String) (sc : List String)
    (hs : env.script = .ok s) (hsc : env.scenes = .ok sc)
    (hm : env.metaRaw = .ok raw) (hv : env.voice = .ok ())
    (ha : env.assemble = .ok ())
    (hf : env.search FALLBACK_QUERY ≠ [])
    (hsub : (∃ e, env.srt = .error e) ∨ (∃ e, env.burn = .error e)) :
    ∃ out, (run_pipeline cfg env).result = .done out ∧
      out.finalVideo = workspace_root env.runId ++ "/video" ++ "/final.mp4" ∧
      (run_pipeline cfg env).result.isOk = true := by
  unfold run_pipeline
  rw [hs, hsc, hm, hv, ha]
  dsimp only
  have h2 := step5_saved_ne_nil env.search cfg.topic sc hf
  simp only [create_video]
  rw [if_neg (by simpa using h2)]
  rcases hsub with ⟨e, he⟩ | ⟨e, he⟩
  · rw [he]
    dsimp only
    exact ⟨_, rfl, rfl, rfl⟩
  · rw [he]
    cases env.srt <;> exact ⟨_, rfl, rfl, rfl⟩

/-- Claim C3 witness: a concrete run in which transcription fails ends
with the silent video as the final artifact and a successful run. -/
theorem C3_subtitle_degradation_witness :
    ∃ out, (run_pipeline cfgLandscape envNoSub).result = .done out ∧
      out.finalVideo =
        workspace_root envNoSub.runId ++ "/video" ++ "/final.mp4" ∧
      (run_pipeline cfgLandscape envNoSub).result.isOk = true :=
  C3_subtitle_degradation cfgLandscape envNoSub "script text"
    "TITLE: T\nDESCRIPTION: D\nTAGS: a, b" ["volcano eruption", "lava flow"]
    rfl rfl rfl rfl rfl (by decide) (Or.inl ⟨"whisper failed", rfl⟩)

/-! ## Claim C4 -/

/-- Claim C4: with an empty scene list (and the earlier load-bearing
stages succeeding), visual acquisition searches the raw topic first; when
that search returns nothing the fixed generic fallback query is attempted;
and the run fails fatally exactly when both the raw-topic search and the
fallback search yield no images. -/
theorem C4_empty_scene_visual_fallback (cfg : RunConfig) (env : Env)
    (s raw : String)
    (hs : env.script = .ok s) (hsc : env.scenes = .ok [])
    (hm : env.metaRaw = .ok raw) (hv : env.voice = .ok ())
    (ha : env.assemble = .ok ()) :
    (run_pipeline cfg env).visualQueries.head? = some cfg.topic ∧
    (env.search cfg.topic = [] →
      FALLBACK_QUERY ∈ (run_pipeline cfg env).visualQueries) ∧
    ((run_pipeline cfg env).result.isOk = false ↔
      (env.search cfg.topic = [] ∧ env.search FALLBACK_QUERY = [])) := by
  unfold run_pipeline
  rw [hs, hsc, hm, hv, ha]
  dsimp only
  have hiff := step5_nil_saved_iff env.search cfg.topic
  by_cases h2 : (step5 env.search cfg.topic []).2 = []
  · have hq := (hiff.mp h2).1
    have hf := (hiff.mp h2).2
    simp [create_video, h2, RunResult.isOk, step5_nil_queries_head,
      step5_nil_fallback_mem, hq, hf]
  · simp [create_video, h2, RunResult.isOk, step5_nil_queries_head,
      step5_nil_fallback_mem]
    constructor
    · intro hq
      exact step5_nil_fallback_mem env.search cfg.topic hq
    · intro hq hf
      exact h2 (hiff.mpr ⟨hq, hf⟩)

/-- Claim C4 witness: a concrete empty-scene run in which every search
returns photos never reaches the no-images fatal state and queries the
raw topic first. -/
theorem C4_empty_scene_visual_fallback_witness :
    (run_pipeline cfgLandscape envNoScenes).visualQueries.head? =
      some cfgLandscape.topic ∧
    (envNoScenes.search cfgLandscape.topic = [] →
      FALLBACK_QUERY ∈ (run_pipeline cfgLandscape envNoScenes).visualQueries) ∧
    ((run_pipeline cfgLandscape envNoScenes).result.isOk = false ↔
      (envNoScenes.search cfgLandscape.topic = [] ∧
       envNoScenes.search FALLBACK_QUERY = [])) :=
  C4_empty_scene_visual_fallback cfgLandscape envNoScenes "script text"
    "TITLE: T\nDESCRIPTION: D\nTAGS: a, b" rfl rfl rfl rfl rfl

/-! ## Claim C5 -/

/-- Claim C5 (code bug): `main.py` passes the keyword `is_short` to
`upload_video`, but `upload_video` declares no such parameter, so on a
portrait run with publish enabled the call raises `TypeError` (caught
non-fatally) and the video is never published — even when every external
collaborator succeeds.  The flag is computed as `true` for the portrait
format, but the upload never happens. -/
theorem C5_portrait_publish_type_error :
    ("is_short" ∈ upload_call_kwargs ∧ "is_short" ∉ upload_video_params) ∧
    (run_pipeline cfgShortPublish envOK).result.success?.map
      (fun r => (r.isShort, r.uploadedId, r.uploadErr.isSome)) =
      some (some true, none, true) := by
  decide

/-! ## Claim C6 -/

/-- Claim C6 counterexample: opening the workspace when the root derived
from the run id (and its sub-directories) already exist succeeds and
returns the filesystem unchanged — no error of any kind is raised, the
existing directories are silently reused. -/
theorem C6_reuse_counterexample :
    fs_preexisting.contains (workspace_root "20240101_000000") = true ∧
    open_workspace fs_preexisting "20240101_000000" = .ok fs_preexisting := by
  decide

/-- Claim C6 (amended): because `main.py` creates every workspace
directory with `exist_ok=True`, opening the run workspace never fails —
in particular a pre-existing root is silently reused, and no
`WorkspaceError` exists in the code. -/
theorem C6_open_workspace_never_fails (fs : List String) (rid : String) :
    ∃ fs2, open_workspace fs rid = .ok fs2 := by
  unfold open_workspace
  dsimp only
  rw [makedirs_exist_ok]
  dsimp only
  rw [makedirs_exist_ok]
  dsimp only
  rw [makedirs_exist_ok]
  exact ⟨_, rfl⟩

/-! ## Claim C7 -/

/-- Claim C7 (code bug): `main.py` passes the keyword `format_type` to
`create_thumbnail`, but `create_thumbnail` declares no such parameter, so
on a landscape run the thumbnail call always raises `TypeError` (caught
non-fatally): the stage is attempted but no thumbnail is ever produced,
even when every external collaborator succeeds — the run still completes
successfully with `thumbnail_path = None`. -/
theorem C7_landscape_thumbnail_type_error :
    ("format_type" ∈ thumbnail_call_kwargs ∧
     "format_type" ∉ create_thumbnail_params) ∧
    (run_pipeline cfgLandscape envOK).result.isOk = true ∧
    (run_pipeline cfgLandscape envOK).result.success?.map
      (fun r => r.thumbnailPath) = some none := by
  decide

/-! ## Claim C8 -/

/-- Claim C8 counterexample: a CLI trigger whose topic is whitespace only
— empty after trimming — is not rejected: `main.py` never trims the CLI
topic, the pipeline runs and the workspace directories are created. -/
theorem C8_whitespace_topic_counterexample :
    pyStrip "   " = "" ∧
    (cli_main "   " "video" "false" "private" envOK).ranPipeline = true ∧
    (cli_main "   " "video" "false" "private" envOK).trace.map
      (fun t => t.workspaceCreated) = some true := by
  decide

/-- Claim C8 (amended): the HTTP trigger rejects a topic that is empty
after trimming with a validation error before any pipeline stage runs and
without creating a workspace; the CLI trigger rejects only the literally
empty topic string (no trimming) before any stage. -/
theorem C8_empty_topic_rejected :
    (∀ (hd : HttpData) (env : Env), pyStrip (hd.topic.getD "") = "" →
      (server_run false hd env).response = .badRequest "Topic is required" ∧
      (server_run false hd env).trace = none) ∧
    (∀ (a1 a2 a3 : String) (env : Env),
      cli_main "" a1 a2 a3 env =
        { ranPipeline := false, trace := none, exitOk := false }) := by
  constructor
  · intro hd env h
    have hz : strip_eq (pyStrip (hd.topic.getD "")) = "" := by rw [h]; rfl
    simp [server_run, server_handle, hz]
  · intro a1 a2 a3 env
    rfl

/-- Claim C8 witness: a whitespace-only HTTP topic is rejected with the
validation response, and an empty CLI topic exits before any stage. -/
theorem C8_empty_topic_rejected_witness :
    (server_run false hdBlankTopic envOK).response =
      .badRequest "Topic is required" ∧
    cli_main "" "video" "true" "private" envOK =
      { ranPipeline := false, trace := none, exitOk := false } :=
  ⟨(C8_empty_topic_rejected.1 hdBlankTopic envOK (by decide)).1,
   C8_empty_topic_rejected.2 "video" "true" "private" envOK⟩

/-! ## Claim C9 -/

/-- Modelled from the spec's words, for comparison with the code: a
publish coercion handles the string forms of true/false/yes/no/1/0,
mapping the true forms to `true` and the false forms to `false`. -/
def coerces_string_forms (c : String → Bool) : Prop :=
  c "true" = true ∧ c "yes" = true ∧ c "1" = true ∧
  c "false" = false ∧ c "no" = false ∧ c "0" = false

/-- Claim C9 counterexample: the CLI argument path does not coerce the
accepted string forms — `"yes"` (a string form of true) is mapped to
`false` by `get_inputs`, while the HTTP path maps it to `true`. -/
theorem C9_cli_forms_counterexample :
    ¬ coerces_string_forms
        (fun s => (get_inputs "t" "video" s "private").upload) ∧
    (get_inputs "t" "video" "yes" "private").upload = false ∧
    http_coerce_upload (.s "yes") = true := by
  unfold coerces_string_forms
  decide

/-- Claim C9 (amended): the HTTP path coerces the loosely-typed publish
field into a strict boolean — booleans pass through and the string forms
true/yes/1 and false/no/0 are recognised — while the CLI path produces a
strict boolean by comparing the lowercased argument with `"true"` only,
so `"yes"` and `"1"` coerce to `false` there. -/
theorem C9_publish_coercion_amended :
    coerces_string_forms (fun s => http_coerce_upload (.s s)) ∧
    (∀ b : Bool, http_coerce_upload (.b b) = b) ∧
    (∀ t f s p : String,
      (get_inputs t f s p).upload = (pyLower s == "true")) :=
  ⟨by unfold coerces_string_forms; decide, fun b => rfl, fun t f s p => rfl⟩

/-! ## Claim C10 -/

/-- Claim C10: parsing the metadata collaborator's payload is total —
`generate_metadata` always returns a record — and each field keeps its
default when the corresponding labelled line is absent: the title defaults
to the topic, the description to the empty string and the tags to the
empty list. -/
theorem C10_metadata_parse_defaults (topic raw : String) :
    ((∀ l ∈ pySplitlines raw,
        pyStartsWith (pyUpper l) "TITLE:" = false) →
      (generate_metadata topic raw).title = topic) ∧
    ((∀ l ∈ pySplitlines raw,
        pyStartsWith (pyUpper l) "DESCRIPTION:" = false) →
      (generate_metadata topic raw).description = "") ∧
    ((∀ l ∈ pySplitlines raw,
        pyStartsWith (pyUpper l) "TAGS:" = false) →
      (generate_metadata topic raw).tags = []) := by
  unfold generate_metadata
  exact ⟨fun h => foldl_parse_title _ _ h,
         fun h => foldl_parse_description _ _ h,
         fun h => foldl_parse_tags _ _ h⟩

/-- Claim C10 witness: on a payload with no labelled lines, the metadata
record holds exactly the defaults. -/
theorem C10_metadata_parse_defaults_witness :
    (generate_metadata "t" "hello\nworld").title = "t" ∧
    (generate_metadata "t" "hello\nworld").description = "" ∧
    (generate_metadata "t" "hello\nworld").tags = [] :=
  ⟨(C10_metadata_parse_defaults "t" "hello\nworld").1 (by decide),
   (C10_metadata_parse_defaults "t" "hello\nworld").2.1 (by decide),
   (C10_metadata_parse_defaults "t" "hello\nworld").2.2 (by decide)⟩

end AIVideo
